import Mathlib

/-!
Verification development for the scorecard reconciliation engine of a
Terraform provider.  The definitions below are a shallow embedding of the
Go source in `internal/provider/scorecard_resource.go` together with the
API model structs of `internal/provider/dxapi`.  Terraform framework
values (`types.String`, `types.Bool`, `types.Number`) are tri-state
(null / unknown / known value); their Go zero value is the null state.
Numbers are embedded as integers, which covers every value the engine
actually moves (ranks, orderings, points, evaluation frequencies).
-/

namespace ScorecardProvider

/-- Tri-state Terraform framework value: null, unknown, or a known value.
The zero value of the corresponding Go structs is the null state. -/
inductive TFVal (α : Type) where
  | null
  | unknown
  | value (a : α)
deriving DecidableEq, Repr

/-- Embeds the Go check `x.IsNull() || x.IsUnknown()` used by the Create
validator. -/
def tfAbsent {α : Type} : TFVal α → Bool
  | TFVal.value _ => false
  | _ => true

/-- Embeds `types.String.ValueString()`: the value when known, `""` otherwise. -/
def tfValueString : TFVal String → String
  | TFVal.value s => s
  | _ => ""

/-- Embeds `types.Bool.ValueBool()`: the value when known, `false` otherwise. -/
def tfValueBool : TFVal Bool → Bool
  | TFVal.value b => b
  | _ => false

/-- Embeds `levelModel` of scorecard_resource.go. -/
structure levelModel where
  key : TFVal String
  id : TFVal String
  name : TFVal String
  color : TFVal String
  rank : TFVal Int
deriving DecidableEq, Repr

/-- Embeds `checkGroupModel` of scorecard_resource.go. -/
structure checkGroupModel where
  key : TFVal String
  id : TFVal String
  name : TFVal String
  ordering : TFVal Int
deriving DecidableEq, Repr

/-- Embeds `checkModel` of scorecard_resource.go. -/
structure checkModel where
  id : TFVal String
  name : TFVal String
  description : TFVal String
  ordering : TFVal Int
  sql : TFVal String
  filterSql : TFVal String
  filterMessage : TFVal String
  outputEnabled : TFVal Bool
  outputType : TFVal String
  outputAggregation : TFVal String
  outputCustomOptions : TFVal String
  estimatedDevDays : TFVal Int
  externalUrl : TFVal String
  published : TFVal Bool
  scorecardLevelKey : TFVal String
  level : levelModel
  scorecardCheckGroupKey : TFVal String
  checkGroup : checkGroupModel
  points : TFVal Int
deriving DecidableEq, Repr

/-- Embeds `scorecardModel` of scorecard_resource.go.  The Go field `Type`
is rendered `typ` (a reserved word in Lean). -/
structure scorecardModel where
  id : TFVal String
  name : TFVal String
  typ : TFVal String
  entityFilterType : TFVal String
  evaluationFrequency : TFVal Int
  emptyLevelLabel : TFVal String
  emptyLevelColor : TFVal String
  levels : List levelModel
  checkGroups : List checkGroupModel
  description : TFVal String
  published : TFVal Bool
  entityFilterTypeIdentifiers : List (TFVal String)
  entityFilterSql : TFVal String
  checks : List checkModel
deriving DecidableEq, Repr

/-- Zero value of the Go struct `levelModel` (all framework values null). -/
def levelModelZero : levelModel :=
  { key := TFVal.null, id := TFVal.null, name := TFVal.null,
    color := TFVal.null, rank := TFVal.null }

/-- Zero value of the Go struct `checkGroupModel`. -/
def checkGroupModelZero : checkGroupModel :=
  { key := TFVal.null, id := TFVal.null, name := TFVal.null,
    ordering := TFVal.null }

/-- Zero value of the Go struct `checkModel`. -/
def checkModelZero : checkModel :=
  { id := TFVal.null, name := TFVal.null, description := TFVal.null,
    ordering := TFVal.null, sql := TFVal.null, filterSql := TFVal.null,
    filterMessage := TFVal.null, outputEnabled := TFVal.null,
    outputType := TFVal.null, outputAggregation := TFVal.null,
    outputCustomOptions := TFVal.null, estimatedDevDays := TFVal.null,
    externalUrl := TFVal.null, published := TFVal.null,
    scorecardLevelKey := TFVal.null, level := levelModelZero,
    scorecardCheckGroupKey := TFVal.null, checkGroup := checkGroupModelZero,
    points := TFVal.null }

/-- Embeds `dxapi.APILevel` (all fields are `*string` / `*int` in Go). -/
structure APILevel where
  key : Option String
  id : Option String
  name : Option String
  color : Option String
  rank : Option Int
deriving DecidableEq, Repr

/-- Embeds `dxapi.APICheckGroup`. -/
structure APICheckGroup where
  key : Option String
  id : Option String
  name : Option String
  ordering : Option Int
deriving DecidableEq, Repr

/-- Embeds `dxapi.APICheck`.  In Go `Level` and `CheckGroup` are pointers
that the reconciler dereferences unconditionally, so they are embedded as
plain structs (the nil-pointer case would panic in the source and is not
reachable in any claim considered here). -/
structure APICheck where
  id : Option String
  name : Option String
  description : Option String
  ordering : Option Int
  sql : Option String
  filterSql : Option String
  filterMessage : Option String
  outputEnabled : Bool
  outputType : Option String
  outputAggregation : Option String
  outputCustomOptions : Option String
  estimatedDevDays : Option Int
  externalUrl : Option String
  published : Bool
  scorecardLevelKey : Option String
  level : APILevel
  scorecardCheckGroupKey : Option String
  checkGroup : APICheckGroup
  points : Option Int
deriving DecidableEq, Repr

/-- Embeds `dxapi.APIScorecard`. -/
structure APIScorecard where
  id : String
  name : String
  typ : String
  entityFilterType : String
  evaluationFrequency : Int
  emptyLevelLabel : Option String
  emptyLevelColor : Option String
  levels : List APILevel
  checkGroups : List APICheckGroup
  description : Option String
  published : Bool
  entityFilterTypeIdentifiers : List (Option String)
  entityFilterSql : Option String
  checks : List APICheck
deriving DecidableEq, Repr

/-- Embeds `dxapi.APIResponse`. -/
structure APIResponse where
  ok : Bool
  scorecard : APIScorecard
deriving DecidableEq, Repr

/-- Zero value of `APILevel`, used only as a `getD` default in statements. -/
def apiLevelZero : APILevel :=
  { key := none, id := none, name := none, color := none, rank := none }

/-- Zero value of `APICheckGroup`, used only as a `getD` default. -/
def apiCheckGroupZero : APICheckGroup :=
  { key := none, id := none, name := none, ordering := none }

/-- Helper `stringOrNull` of `mapApiResponseToTerraformModel`: a nil
pointer becomes a null framework string. -/
def stringOrNull : Option String → TFVal String
  | some s => TFVal.value s
  | none => TFVal.null

/-- Helper `boolApiToTF` of `mapApiResponseToTerraformModel`: keeps the
plan value null when the plan value is null and the API sent `false`;
otherwise adopts the API value. -/
def boolApiToTF (apiVal : Bool) (planVal : TFVal Bool) : TFVal Bool :=
  if planVal = TFVal.null && !apiVal then TFVal.null else TFVal.value apiVal

/-- Helper `numberOrNull` of `mapApiResponseToTerraformModel`. -/
def numberOrNull : Option Int → TFVal Int
  | some n => TFVal.value n
  | none => TFVal.null

/-- Indexed rebuild of a list the way the Go loops do it: element `i` of
the response list is combined with element `i` of the previous list when
it exists, and with the zero value `z` otherwise (`var old ...; if i <
len(oldPlan.Xs) { old = oldPlan.Xs[i] }`). -/
def mergeIdx {α β γ : Type} (old : List α) (z : α) (f : α → β → γ) :
    Nat → List β → List γ
  | _, [] => []
  | i, b :: rest => f (old.getD i z) b :: mergeIdx old z f (i + 1) rest

/-- Per-item merge for levels (loop body at lines 509-522 of
scorecard_resource.go): `key` kept from the previous item, server-sourced
fields adopted from the response item. -/
def mergeLevel (oldLevel : levelModel) (lvl : APILevel) : levelModel :=
  { key := oldLevel.key
    id := stringOrNull lvl.id
    name := stringOrNull lvl.name
    color := stringOrNull lvl.color
    rank := numberOrNull lvl.rank }

/-- Per-item merge for check groups (loop body at lines 533-545). -/
def mergeCheckGroup (prevCheckGroup : checkGroupModel) (grp : APICheckGroup) :
    checkGroupModel :=
  { key := prevCheckGroup.key
    id := stringOrNull grp.id
    name := stringOrNull grp.name
    ordering := numberOrNull grp.ordering }

/-- Per-item merge for checks (loop body at lines 569-610).  The source
reads `plan.Checks[i].OutputEnabled` and `plan.Checks[i].Published` after
`plan.Checks` was reassigned to a freshly zeroed slice at line 568, so
the second argument of `boolApiToTF` there is the zero (null) value, not
the previous check's value. -/
def mergeCheck (prevCheck : checkModel) (chk : APICheck) : checkModel :=
  { id := stringOrNull chk.id
    name := stringOrNull chk.name
    description := stringOrNull chk.description
    ordering := numberOrNull chk.ordering
    sql := stringOrNull chk.sql
    filterSql := stringOrNull chk.filterSql
    filterMessage := stringOrNull chk.filterMessage
    outputEnabled := boolApiToTF chk.outputEnabled TFVal.null
    outputType := stringOrNull chk.outputType
    outputAggregation := stringOrNull chk.outputAggregation
    outputCustomOptions := stringOrNull chk.outputCustomOptions
    estimatedDevDays := numberOrNull chk.estimatedDevDays
    externalUrl := stringOrNull chk.externalUrl
    published := boolApiToTF chk.published TFVal.null
    scorecardLevelKey := prevCheck.scorecardLevelKey
    level :=
      { key := prevCheck.level.key
        id := stringOrNull chk.level.id
        name := stringOrNull chk.level.name
        color := stringOrNull chk.level.color
        rank := numberOrNull chk.level.rank }
    scorecardCheckGroupKey := prevCheck.scorecardCheckGroupKey
    checkGroup :=
      { key := prevCheck.checkGroup.key
        id := stringOrNull chk.checkGroup.id
        name := stringOrNull chk.checkGroup.name
        ordering := numberOrNull chk.checkGroup.ordering }
    points := numberOrNull chk.points }

/-- Embeds `mapApiResponseToTerraformModel` (lines 466-614).  The Go
function mutates `plan` in place with `oldPlan` a prior shallow copy; at
the single point where a pre-existing `plan` field is still read
(`plan.Published` at line 553) it equals the corresponding `oldPlan`
field, so the function is a pure map of the response and the previous
model. -/
def mapApiResponseToTerraformModel (apiResp : APIResponse)
    (oldPlan : scorecardModel) : scorecardModel :=
  let sc := apiResp.scorecard
  { id := TFVal.value sc.id
    name := TFVal.value sc.name
    typ := TFVal.value sc.typ
    entityFilterType := TFVal.value sc.entityFilterType
    evaluationFrequency := TFVal.value sc.evaluationFrequency
    emptyLevelLabel := stringOrNull sc.emptyLevelLabel
    emptyLevelColor := stringOrNull sc.emptyLevelColor
    levels :=
      if sc.levels.isEmpty then oldPlan.levels
      else mergeIdx oldPlan.levels levelModelZero mergeLevel 0 sc.levels
    checkGroups :=
      if sc.checkGroups.isEmpty then oldPlan.checkGroups
      else mergeIdx oldPlan.checkGroups checkGroupModelZero mergeCheckGroup 0
        sc.checkGroups
    description := stringOrNull sc.description
    published := boolApiToTF sc.published oldPlan.published
    entityFilterTypeIdentifiers :=
      if sc.entityFilterTypeIdentifiers.isEmpty then
        oldPlan.entityFilterTypeIdentifiers
      else sc.entityFilterTypeIdentifiers.map stringOrNull
    entityFilterSql := stringOrNull sc.entityFilterSql
    checks :=
      if sc.checks.isEmpty then oldPlan.checks
      else mergeIdx oldPlan.checks checkModelZero mergeCheck 0 sc.checks }

/-- Embeds the validation section of `Create` (lines 302-344).  Each of
the four required-scalar checks adds its error and returns immediately;
the type-conditional checks accumulate their errors and only then the
`HasError` guard stops the flow.  Error detail strings follow the
source. -/
def validateCreate (plan : scorecardModel) : List String :=
  if tfAbsent plan.name then
    ["The \x27name\x27 field must be specified."]
  else if tfAbsent plan.typ then
    ["The \x27type\x27 field must be specified."]
  else if tfAbsent plan.entityFilterType then
    ["The \x27entity_filter_type\x27 field must be specified."]
  else if tfAbsent plan.evaluationFrequency then
    ["The \x27evaluation_frequency_hours\x27 field must be specified."]
  else
    let scorecardType := tfValueString plan.typ
    if scorecardType = "LEVEL" then
      (if tfAbsent plan.emptyLevelLabel then
        ["The \x27empty_level_label\x27 field must be specified for LEVEL scorecards."]
      else []) ++
      (if tfAbsent plan.emptyLevelColor then
        ["The \x27empty_level_color\x27 field must be specified for LEVEL scorecards."]
      else []) ++
      (if plan.levels.length = 0 then
        ["At least one \x27level\x27 must be specified for LEVEL scorecards."]
      else [])
    else if scorecardType = "POINTS" then
      (if plan.checkGroups.length = 0 then
        ["At least one \x27check_group\x27 must be specified for POINTS scorecards."]
      else [])
    else
      ["Unsupported scorecard type: " ++ scorecardType]

/-- Wire payload value: the dynamically typed values the Go code places
into the `map[string]interface{}` payloads (strings, bools, raw
`types.Number` structs, `*big.Float` results of `ValueBigFloat`, string
lists, nested objects and lists of objects). -/
inductive PVal where
  | str (s : String)
  | flag (b : Bool)
  | tfnum (n : TFVal Int)
  | bigfloat (n : TFVal Int)
  | strlist (ss : List String)
  | list (vs : List PVal)
  | obj (fs : List (String × PVal))

/-- Presence of a key among the top-level entries of a payload object. -/
def objHasKey (fs : List (String × PVal)) (k : String) : Bool :=
  fs.any (fun f => f.1 == k)

/-- Lookup of a key among the top-level entries of a payload object. -/
def lookupP (fs : List (String × PVal)) (k : String) : Option PVal :=
  (fs.find? (fun f => f.1 == k)).map (fun f => f.2)

/-- Level entry of the create payload (lines 362-367): no id on the wire. -/
def createLevelObj (level : levelModel) : List (String × PVal) :=
  [("key", PVal.str (tfValueString level.key)),
   ("name", PVal.str (tfValueString level.name)),
   ("color", PVal.str (tfValueString level.color)),
   ("rank", PVal.bigfloat level.rank)]

/-- Check-group entry of the create payload (lines 376-380): no id. -/
def createCheckGroupObj (group : checkGroupModel) : List (String × PVal) :=
  [("key", PVal.str (tfValueString group.key)),
   ("name", PVal.str (tfValueString group.name)),
   ("ordering", PVal.tfnum group.ordering)]

/-- Embedded level sub-object of a check in the create payload (lines
427-433).  The source does place an `id` entry here. -/
def createCheckLevelSub (check : checkModel) : List (String × PVal) :=
  [("key", PVal.str (tfValueString check.level.key)),
   ("id", PVal.str (tfValueString check.level.id)),
   ("name", PVal.str (tfValueString check.level.name)),
   ("color", PVal.str (tfValueString check.level.color)),
   ("rank", PVal.bigfloat check.level.rank)]

/-- Embedded check-group sub-object of a check in the create payload
(lines 439-443): no id. -/
def createCheckCheckGroupSub (check : checkModel) : List (String × PVal) :=
  [("key", PVal.str (tfValueString check.checkGroup.key)),
   ("name", PVal.str (tfValueString check.checkGroup.name)),
   ("ordering", PVal.tfnum check.checkGroup.ordering)]

/-- Check entry of the create payload (lines 408-445). -/
def createCheckObj (scorecardType : String) (check : checkModel) :
    List (String × PVal) :=
  [("name", PVal.str (tfValueString check.name)),
   ("description", PVal.str (tfValueString check.description)),
   ("ordering", PVal.tfnum check.ordering),
   ("sql", PVal.str (tfValueString check.sql)),
   ("filter_sql", PVal.str (tfValueString check.filterSql)),
   ("filter_message", PVal.str (tfValueString check.filterMessage)),
   ("output_enabled", PVal.flag (tfValueBool check.outputEnabled)),
   ("output_type", PVal.str (tfValueString check.outputType)),
   ("output_aggregation", PVal.str (tfValueString check.outputAggregation)),
   ("output_custom_options", PVal.str (tfValueString check.outputCustomOptions)),
   ("estimated_dev_days", PVal.tfnum check.estimatedDevDays),
   ("external_url", PVal.str (tfValueString check.externalUrl)),
   ("published", PVal.flag (tfValueBool check.published))] ++
  (if scorecardType = "LEVEL" then
    [("scorecard_level_key", PVal.str (tfValueString check.scorecardLevelKey)),
     ("level", PVal.obj (createCheckLevelSub check))]
  else []) ++
  (if scorecardType = "POINTS" then
    [("scorecard_check_group_key",
       PVal.str (tfValueString check.scorecardCheckGroupKey)),
     ("check_group", PVal.obj (createCheckCheckGroupSub check)),
     ("points", PVal.tfnum check.points)]
  else [])

/-- Identifier collection shared by both payload builds (lines 392-399 and
714-721): known values are appended via `ValueString`, null and unknown
entries are skipped. -/
def collectIdentifiers (ids : List (TFVal String)) : List String :=
  ids.filterMap (fun x =>
    match x with
    | TFVal.value s => some s
    | _ => none)

/-- Embeds the create payload construction of `Create` (lines 347-449). -/
def buildCreatePayload (plan : scorecardModel) : List (String × PVal) :=
  let scorecardType := tfValueString plan.typ
  [("name", PVal.str (tfValueString plan.name)),
   ("type", PVal.str scorecardType),
   ("entity_filter_type", PVal.str (tfValueString plan.entityFilterType)),
   ("evaluation_frequency_hours", PVal.bigfloat plan.evaluationFrequency)] ++
  (if scorecardType = "LEVEL" then
    [("empty_level_label", PVal.str (tfValueString plan.emptyLevelLabel)),
     ("empty_level_color", PVal.str (tfValueString plan.emptyLevelColor)),
     ("levels",
       PVal.list (plan.levels.map (fun l => PVal.obj (createLevelObj l))))]
  else []) ++
  (if scorecardType = "POINTS" then
    [("check_groups",
       PVal.list (plan.checkGroups.map (fun g =>
         PVal.obj (createCheckGroupObj g))))]
  else []) ++
  (if !tfAbsent plan.description then
    [("description", PVal.str (tfValueString plan.description))]
  else []) ++
  (if !tfAbsent plan.published then
    [("published", PVal.flag (tfValueBool plan.published))]
  else []) ++
  (if plan.entityFilterTypeIdentifiers.length > 0 then
    [("entity_filter_type_identifiers",
       PVal.strlist (collectIdentifiers plan.entityFilterTypeIdentifiers))]
  else []) ++
  (if !tfAbsent plan.entityFilterSql then
    [("entity_filter_sql", PVal.str (tfValueString plan.entityFilterSql))]
  else []) ++
  [("checks",
     PVal.list (plan.checks.map (fun c =>
       PVal.obj (createCheckObj scorecardType c))))]

/-- Level entry of the update payload (lines 686-692): includes the id. -/
def updateLevelObj (level : levelModel) : List (String × PVal) :=
  [("key", PVal.str (tfValueString level.key)),
   ("id", PVal.str (tfValueString level.id)),
   ("name", PVal.str (tfValueString level.name)),
   ("color", PVal.str (tfValueString level.color)),
   ("rank", PVal.bigfloat level.rank)]

/-- Check-group entry of the update payload (lines 699-704): includes id. -/
def updateCheckGroupObj (group : checkGroupModel) : List (String × PVal) :=
  [("key", PVal.str (tfValueString group.key)),
   ("id", PVal.str (tfValueString group.id)),
   ("name", PVal.str (tfValueString group.name)),
   ("ordering", PVal.tfnum group.ordering)]

/-- Embedded level sub-object of a check in the update payload (lines
746-752): includes the id. -/
def updateCheckLevelSub (check : checkModel) : List (String × PVal) :=
  [("key", PVal.str (tfValueString check.level.key)),
   ("id", PVal.str (tfValueString check.level.id)),
   ("name", PVal.str (tfValueString check.level.name)),
   ("color", PVal.str (tfValueString check.level.color)),
   ("rank", PVal.bigfloat check.level.rank)]

/-- Embedded check-group sub-object of a check in the update payload
(lines 756-761): includes the id. -/
def updateCheckCheckGroupSub (check : checkModel) : List (String × PVal) :=
  [("key", PVal.str (tfValueString check.checkGroup.key)),
   ("id", PVal.str (tfValueString check.checkGroup.id)),
   ("name", PVal.str (tfValueString check.checkGroup.name)),
   ("ordering", PVal.tfnum check.checkGroup.ordering)]

/-- Check entry of the update payload (lines 727-764): includes the id. -/
def updateCheckObj (scorecardType : String) (check : checkModel) :
    List (String × PVal) :=
  [("id", PVal.str (tfValueString check.id)),
   ("name", PVal.str (tfValueString check.name)),
   ("description", PVal.str (tfValueString check.description)),
   ("ordering", PVal.tfnum check.ordering),
   ("sql", PVal.str (tfValueString check.sql)),
   ("filter_sql", PVal.str (tfValueString check.filterSql)),
   ("filter_message", PVal.str (tfValueString check.filterMessage)),
   ("output_enabled", PVal.flag (tfValueBool check.outputEnabled)),
   ("output_type", PVal.str (tfValueString check.outputType)),
   ("output_aggregation", PVal.str (tfValueString check.outputAggregation)),
   ("output_custom_options", PVal.str (tfValueString check.outputCustomOptions)),
   ("estimated_dev_days", PVal.tfnum check.estimatedDevDays),
   ("external_url", PVal.str (tfValueString check.externalUrl)),
   ("published", PVal.flag (tfValueBool check.published))] ++
  (if scorecardType = "LEVEL" then
    [("scorecard_level_key", PVal.str (tfValueString check.scorecardLevelKey)),
     ("level", PVal.obj (updateCheckLevelSub check))]
  else []) ++
  (if scorecardType = "POINTS" then
    [("scorecard_check_group_key",
       PVal.str (tfValueString check.scorecardCheckGroupKey)),
     ("check_group", PVal.obj (updateCheckCheckGroupSub check)),
     ("points", PVal.tfnum check.points)]
  else [])

/-- Embeds the update payload construction of `Update` (lines 672-766). -/
def buildUpdatePayload (plan : scorecardModel) : List (String × PVal) :=
  let scorecardType := tfValueString plan.typ
  [("id", PVal.str (tfValueString plan.id)),
   ("name", PVal.str (tfValueString plan.name)),
   ("type", PVal.str scorecardType),
   ("entity_filter_type", PVal.str (tfValueString plan.entityFilterType)),
   ("evaluation_frequency_hours", PVal.bigfloat plan.evaluationFrequency)] ++
  (if scorecardType = "LEVEL" then
    [("empty_level_label", PVal.str (tfValueString plan.emptyLevelLabel)),
     ("empty_level_color", PVal.str (tfValueString plan.emptyLevelColor)),
     ("levels",
       PVal.list (plan.levels.map (fun l => PVal.obj (updateLevelObj l))))]
  else []) ++
  (if scorecardType = "POINTS" then
    [("check_groups",
       PVal.list (plan.checkGroups.map (fun g =>
         PVal.obj (updateCheckGroupObj g))))]
  else []) ++
  (if !tfAbsent plan.description then
    [("description", PVal.str (tfValueString plan.description))]
  else []) ++
  (if !tfAbsent plan.published then
    [("published", PVal.flag (tfValueBool plan.published))]
  else []) ++
  (if plan.entityFilterTypeIdentifiers.length > 0 then
    [("entity_filter_type_identifiers",
       PVal.strlist (collectIdentifiers plan.entityFilterTypeIdentifiers))]
  else []) ++
  (if !tfAbsent plan.entityFilterSql then
    [("entity_filter_sql", PVal.str (tfValueString plan.entityFilterSql))]
  else []) ++
  [("checks",
     PVal.list (plan.checks.map (fun c =>
       PVal.obj (updateCheckObj scorecardType c))))]

/-- Observable outcome of one lifecycle event: whether the remote client
was invoked, the diagnostics added, and the state written via
`resp.State.Set` (`none` means the persisted state was not touched). -/
structure FlowResult where
  remoteCalled : Bool
  errors : List String
  stateWritten : Option scorecardModel
deriving DecidableEq, Repr

/-- Embeds the control flow of `Create` (lines 293-464) after a
successful `Plan.Get`: validation, early return on validation errors,
remote call (its outcome is a parameter), early return on a client
error, then reconciliation and the single state write. -/
def createFlow (plan : scorecardModel)
    (remote : Except String APIResponse) : FlowResult :=
  let errs := validateCreate plan
  if errs.isEmpty then
    match remote with
    | Except.error e =>
      { remoteCalled := true, errors := ["Error creating scorecard: " ++ e],
        stateWritten := none }
    | Except.ok apiResp =>
      { remoteCalled := true, errors := [],
        stateWritten := some (mapApiResponseToTerraformModel apiResp plan) }
  else
    { remoteCalled := false, errors := errs, stateWritten := none }

/-- Embeds the control flow of `Read` (lines 616-661) after a successful
`State.Get`: missing-id guard, remote fetch, early return on a client
error, then reconciliation and the single state write. -/
def readFlow (state : scorecardModel)
    (remote : Except String APIResponse) : FlowResult :=
  if tfValueString state.id = "" then
    { remoteCalled := false,
      errors := ["The resource ID is missing from the state"],
      stateWritten := none }
  else
    match remote with
    | Except.error e =>
      { remoteCalled := true, errors := ["Error reading scorecard: " ++ e],
        stateWritten := none }
    | Except.ok apiResp =>
      { remoteCalled := true, errors := [],
        stateWritten := some (mapApiResponseToTerraformModel apiResp state) }

/-- Embeds the control flow of `Update` (lines 664-781) after a
successful `Plan.Get`: no validation is performed; the payload is built
and the remote update is invoked unconditionally, then reconciliation
and the single state write. -/
def updateFlow (plan : scorecardModel)
    (remote : Except String APIResponse) : FlowResult :=
  match remote with
  | Except.error e =>
    { remoteCalled := true, errors := ["Error updating scorecard: " ++ e],
      stateWritten := none }
  | Except.ok apiResp =>
    { remoteCalled := true, errors := [],
      stateWritten := some (mapApiResponseToTerraformModel apiResp plan) }

/-- Embeds the control flow of `Delete` (lines 783-806) after a
successful `State.Get`: missing-id guard, remote delete, error reporting;
no state write occurs on any path. -/
def deleteFlow (state : scorecardModel)
    (remote : Except String Bool) : FlowResult :=
  if tfValueString state.id = "" then
    { remoteCalled := false,
      errors := ["The resource ID is missing from the state"],
      stateWritten := none }
  else
    match remote with
    | Except.error e =>
      { remoteCalled := true, errors := ["Error deleting scorecard: " ++ e],
        stateWritten := none }
    | Except.ok success =>
      if success then
        { remoteCalled := true, errors := [], stateWritten := none }
      else
        { remoteCalled := true, errors := ["API did not confirm deletion."],
          stateWritten := none }

/-! ### Shared lemmas about the indexed rebuild -/

theorem mergeIdx_length {α β γ : Type} (old : List α) (z : α) (f : α → β → γ)
    (i : Nat) (bs : List β) : (mergeIdx old z f i bs).length = bs.length := by
  induction bs generalizing i with
  | nil => rfl
  | cons b rest ih => simp [mergeIdx, ih]

theorem mergeIdx_getD {α β γ : Type} (old : List α) (z : α) (f : α → β → γ)
    (d : γ) (zb : β) (bs : List β) :
    ∀ (i j : Nat), j < bs.length →
      (mergeIdx old z f i bs).getD j d = f (old.getD (i + j) z) (bs.getD j zb) := by
  induction bs with
  | nil =>
    intro i j h
    exact absurd h (by simp)
  | cons b rest ih =>
    intro i j h
    cases j with
    | zero => simp [mergeIdx]
    | succ j' =>
      have hj : j' < rest.length := Nat.lt_of_succ_lt_succ h
      have hrec := ih (i + 1) j' hj
      have harith : i + 1 + j' = i + (j' + 1) := by omega
      simp only [mergeIdx, List.getD_cons_succ]
      rw [hrec, harith]

theorem reconcile_levels_eq (resp : APIResponse) (prev : scorecardModel)
    (hne : resp.scorecard.levels.isEmpty = false) :
    (mapApiResponseToTerraformModel resp prev).levels
      = mergeIdx prev.levels levelModelZero mergeLevel 0
          resp.scorecard.levels := by
  simp [mapApiResponseToTerraformModel, hne]

theorem reconcile_checkGroups_eq (resp : APIResponse) (prev : scorecardModel)
    (hne : resp.scorecard.checkGroups.isEmpty = false) :
    (mapApiResponseToTerraformModel resp prev).checkGroups
      = mergeIdx prev.checkGroups checkGroupModelZero mergeCheckGroup 0
          resp.scorecard.checkGroups := by
  simp [mapApiResponseToTerraformModel, hne]

theorem reconcile_checks_eq (resp : APIResponse) (prev : scorecardModel)
    (hne : resp.scorecard.checks.isEmpty = false) :
    (mapApiResponseToTerraformModel resp prev).checks
      = mergeIdx prev.checks checkModelZero mergeCheck 0
          resp.scorecard.checks := by
  simp [mapApiResponseToTerraformModel, hne]

/-! ### Concrete fixtures used by counterexamples and witnesses -/

/-- Declared Bronze level with client key `"b"`, as in the spec's
name-correlation example. -/
def bronzeLevel : levelModel :=
  { key := TFVal.value "b", id := TFVal.null, name := TFVal.value "Bronze",
    color := TFVal.value "#cd7f32", rank := TFVal.value 1 }

/-- Valid LEVEL scorecard declaring the single Bronze level. -/
def prevC1 : scorecardModel :=
  { id := TFVal.null, name := TFVal.value "SC", typ := TFVal.value "LEVEL",
    entityFilterType := TFVal.value "entity_types",
    evaluationFrequency := TFVal.value 2,
    emptyLevelLabel := TFVal.value "None",
    emptyLevelColor := TFVal.value "#cccccc",
    levels := [bronzeLevel], checkGroups := [],
    description := TFVal.null, published := TFVal.null,
    entityFilterTypeIdentifiers := [], entityFilterSql := TFVal.null,
    checks := [] }

/-- Create response returning Bronze (id L1) and an extra Gold (id L2)
that was never submitted, as in the spec's name-correlation example. -/
def respC1 : APIResponse :=
  { ok := true,
    scorecard :=
    { id := "sc_1", name := "SC", typ := "LEVEL",
      entityFilterType := "entity_types", evaluationFrequency := 2,
      emptyLevelLabel := some "None", emptyLevelColor := some "#cccccc",
      levels :=
        [{ key := none, id := some "L1", name := some "Bronze",
           color := some "#cd7f32", rank := some 1 },
         { key := none, id := some "L2", name := some "Gold",
           color := some "#ffd700", rank := some 2 }],
      checkGroups := [], description := none, published := false,
      entityFilterTypeIdentifiers := [], entityFilterSql := none,
      checks := [] } }

/-- Previous state with two levels, one check group, one check and one
entity filter type identifier. -/
def prevTwoLevels : scorecardModel :=
  { id := TFVal.value "sc_1", name := TFVal.value "SC",
    typ := TFVal.value "LEVEL",
    entityFilterType := TFVal.value "entity_types",
    evaluationFrequency := TFVal.value 2,
    emptyLevelLabel := TFVal.value "None",
    emptyLevelColor := TFVal.value "#cccccc",
    levels :=
      [bronzeLevel,
       { key := TFVal.value "s", id := TFVal.value "L9",
         name := TFVal.value "Silver", color := TFVal.value "#c0c0c0",
         rank := TFVal.value 2 }],
    checkGroups :=
      [{ key := TFVal.value "g", id := TFVal.value "G1",
         name := TFVal.value "Group", ordering := TFVal.value 1 }],
    description := TFVal.value "d", published := TFVal.value true,
    entityFilterTypeIdentifiers := [TFVal.value "service"],
    entityFilterSql := TFVal.null,
    checks := [{ checkModelZero with name := TFVal.value "Check" }] }

/-- Response whose list fields are all empty. -/
def respEmpty : APIResponse :=
  { ok := true,
    scorecard :=
    { id := "sc_1", name := "SC", typ := "LEVEL",
      entityFilterType := "entity_types", evaluationFrequency := 2,
      emptyLevelLabel := some "None", emptyLevelColor := some "#cccccc",
      levels := [], checkGroups := [], description := none,
      published := false, entityFilterTypeIdentifiers := [],
      entityFilterSql := none, checks := [] } }

/-- Response check used by the non-empty-list fixtures. -/
def apiCheckSample : APICheck :=
  { id := some "c1", name := some "Check", description := some "d",
    ordering := some 1, sql := some "q", filterSql := some "f",
    filterMessage := some "m", outputEnabled := true,
    outputType := some "t", outputAggregation := some "a",
    outputCustomOptions := some "o", estimatedDevDays := some 1,
    externalUrl := some "u", published := true,
    scorecardLevelKey := none,
    level := { key := none, id := some "L1", name := some "Bronze",
               color := some "#cd7f32", rank := some 1 },
    scorecardCheckGroupKey := none, checkGroup := apiCheckGroupZero,
    points := some 5 }

/-- Response with three levels, one check group, one check and one
identifier (strictly more levels than `prevTwoLevels` declares). -/
def respFull : APIResponse :=
  { ok := true,
    scorecard :=
    { id := "sc_1", name := "SC", typ := "LEVEL",
      entityFilterType := "entity_types", evaluationFrequency := 2,
      emptyLevelLabel := some "None", emptyLevelColor := some "#cccccc",
      levels :=
        [{ key := none, id := some "L1", name := some "Bronze",
           color := some "#cd7f32", rank := some 1 },
         { key := none, id := some "L9", name := some "Silver",
           color := some "#c0c0c0", rank := some 2 },
         { key := none, id := some "L3", name := some "Gold",
           color := some "#ffd700", rank := some 3 }],
      checkGroups :=
        [{ key := none, id := some "G1", name := some "Group",
           ordering := some 1 }],
      description := some "d", published := true,
      entityFilterTypeIdentifiers := [some "service", none],
      entityFilterSql := none,
      checks := [apiCheckSample] } }

/-! ### Claim theorems -/

/-- C1 counterexample.  The claim says the create flow correlates response
items to the submitted ones by name equality and that an extra response
entry with an unsubmitted name produces no spurious local entry.  On the
code, the create flow reuses the positional reconciler: submitting only
Bronze and receiving Bronze plus an unsubmitted Gold yields a reconciled
state with two level entries, the spurious Gold one carrying an unset
key. -/
theorem C1_counterexample :
    (createFlow prevC1 (Except.ok respC1)).stateWritten.map
      (fun st =>
        (st.levels.length,
         (st.levels.getD 0 levelModelZero).id,
         (st.levels.getD 0 levelModelZero).key,
         (st.levels.getD 1 levelModelZero).name,
         (st.levels.getD 1 levelModelZero).key))
      = some (2, TFVal.value "L1", TFVal.value "b", TFVal.value "Gold",
          TFVal.null) := by
  decide

/-- C1 (amended): after a successful remote create of a validated plan,
the written state is the positional reconciliation of the response
against the submitted plan: level `i` of the response supplies `id`,
`name`, `color` and `rank`, the submitted level at the same position
supplies `key`, and a response level beyond the submitted list yields a
local entry with an unset key (so extra response entries do produce local
entries, one per response item). -/
theorem C1_create_positional (prev : scorecardModel) (resp : APIResponse)
    (i : Nat) (hval : validateCreate prev = [])
    (hne : resp.scorecard.levels.isEmpty = false)
    (hi : i < resp.scorecard.levels.length) :
    (createFlow prev (Except.ok resp)).stateWritten
      = some (mapApiResponseToTerraformModel resp prev)
    ∧ (mapApiResponseToTerraformModel resp prev).levels.length
        = resp.scorecard.levels.length
    ∧ (mapApiResponseToTerraformModel resp prev).levels.getD i levelModelZero
      = { key := (prev.levels.getD i levelModelZero).key,
          id := stringOrNull ((resp.scorecard.levels.getD i apiLevelZero).id),
          name := stringOrNull ((resp.scorecard.levels.getD i apiLevelZero).name),
          color := stringOrNull ((resp.scorecard.levels.getD i apiLevelZero).color),
          rank := numberOrNull ((resp.scorecard.levels.getD i apiLevelZero).rank) }
    ∧ (prev.levels.length ≤ i →
        ((mapApiResponseToTerraformModel resp prev).levels.getD i
          levelModelZero).key = TFVal.null) := by
  have hlv := reconcile_levels_eq resp prev hne
  have h := mergeIdx_getD prev.levels levelModelZero mergeLevel
    levelModelZero apiLevelZero resp.scorecard.levels 0 i hi
  simp only [Nat.zero_add] at h
  refine ⟨?_, ?_, ?_, ?_⟩
  · simp [createFlow, hval]
  · rw [hlv, mergeIdx_length]
  · rw [hlv, h]; rfl
  · intro hle
    rw [hlv, h, List.getD_eq_default _ _ hle]; rfl

/-- C1 witness: the amended statement instantiated on the Bronze/Gold
fixture at position 1 (beyond the submitted list). -/
theorem C1_create_positional_witness :
    (createFlow prevC1 (Except.ok respC1)).stateWritten
      = some (mapApiResponseToTerraformModel respC1 prevC1)
    ∧ ((mapApiResponseToTerraformModel respC1 prevC1).levels.getD 1
        levelModelZero).key = TFVal.null := by
  have h := C1_create_positional prevC1 respC1 1 (by decide) (by decide)
    (by decide)
  exact ⟨h.1, h.2.2.2 (by decide)⟩

/-- C2: in every reconciliation each of the three nested list fields is
kept verbatim from the previous model when the response list is empty,
and is rebuilt with one entry per response item when the response list is
non-empty. -/
theorem C2_list_replace_or_keep (resp : APIResponse) (prev : scorecardModel) :
    (resp.scorecard.levels.isEmpty = true →
      (mapApiResponseToTerraformModel resp prev).levels = prev.levels)
  ∧ (resp.scorecard.checkGroups.isEmpty = true →
      (mapApiResponseToTerraformModel resp prev).checkGroups = prev.checkGroups)
  ∧ (resp.scorecard.checks.isEmpty = true →
      (mapApiResponseToTerraformModel resp prev).checks = prev.checks)
  ∧ (resp.scorecard.levels.isEmpty = false →
      (mapApiResponseToTerraformModel resp prev).levels.length
        = resp.scorecard.levels.length)
  ∧ (resp.scorecard.checkGroups.isEmpty = false →
      (mapApiResponseToTerraformModel resp prev).checkGroups.length
        = resp.scorecard.checkGroups.length)
  ∧ (resp.scorecard.checks.isEmpty = false →
      (mapApiResponseToTerraformModel resp prev).checks.length
        = resp.scorecard.checks.length) := by
  refine ⟨?_, ?_, ?_, ?_, ?_, ?_⟩ <;> intro h <;>
    simp [mapApiResponseToTerraformModel, h, mergeIdx_length]

/-- C2 witness: the empty-response fallback on a previous state with two
levels (the spec's own instance), and the rebuild length on a response
with non-empty lists. -/
theorem C2_witness :
    prevTwoLevels.levels.length = 2
  ∧ (mapApiResponseToTerraformModel respEmpty prevTwoLevels).levels
      = prevTwoLevels.levels
  ∧ (mapApiResponseToTerraformModel respEmpty prevTwoLevels).checkGroups
      = prevTwoLevels.checkGroups
  ∧ (mapApiResponseToTerraformModel respEmpty prevTwoLevels).checks
      = prevTwoLevels.checks
  ∧ (mapApiResponseToTerraformModel respFull prevTwoLevels).levels.length
      = respFull.scorecard.levels.length
  ∧ (mapApiResponseToTerraformModel respFull prevTwoLevels).checkGroups.length
      = respFull.scorecard.checkGroups.length
  ∧ (mapApiResponseToTerraformModel respFull prevTwoLevels).checks.length
      = respFull.scorecard.checks.length := by
  have h1 := C2_list_replace_or_keep respEmpty prevTwoLevels
  have h2 := C2_list_replace_or_keep respFull prevTwoLevels
  exact ⟨by decide, h1.1 (by decide), h1.2.1 (by decide),
    h1.2.2.1 (by decide), h2.2.2.2.1 (by decide),
    h2.2.2.2.2.1 (by decide), h2.2.2.2.2.2 (by decide)⟩

/-- C3: when a response list replaces the local list, item `i` of the
response merges against the previous item at the same position: the
merged level takes `id`, `name`, `color` and `rank` from the response
item and `key` from the previous item, the merged check group takes `id`,
`name` and `ordering` from the response item and `key` from the previous
item, and `key` is unset when the previous list has no item at that
position. -/
theorem C3_positional_item_merge (resp : APIResponse) (prev : scorecardModel)
    (i j : Nat) :
    (resp.scorecard.levels.isEmpty = false →
      i < resp.scorecard.levels.length →
      (mapApiResponseToTerraformModel resp prev).levels.getD i levelModelZero
        = { key := (prev.levels.getD i levelModelZero).key,
            id := stringOrNull ((resp.scorecard.levels.getD i apiLevelZero).id),
            name := stringOrNull
              ((resp.scorecard.levels.getD i apiLevelZero).name),
            color := stringOrNull
              ((resp.scorecard.levels.getD i apiLevelZero).color),
            rank := numberOrNull
              ((resp.scorecard.levels.getD i apiLevelZero).rank) }
      ∧ (prev.levels.length ≤ i →
          ((mapApiResponseToTerraformModel resp prev).levels.getD i
            levelModelZero).key = TFVal.null))
  ∧ (resp.scorecard.checkGroups.isEmpty = false →
      j < resp.scorecard.checkGroups.length →
      (mapApiResponseToTerraformModel resp prev).checkGroups.getD j
          checkGroupModelZero
        = { key := (prev.checkGroups.getD j checkGroupModelZero).key,
            id := stringOrNull
              ((resp.scorecard.checkGroups.getD j apiCheckGroupZero).id),
            name := stringOrNull
              ((resp.scorecard.checkGroups.getD j apiCheckGroupZero).name),
            ordering := numberOrNull
              ((resp.scorecard.checkGroups.getD j apiCheckGroupZero).ordering) }
      ∧ (prev.checkGroups.length ≤ j →
          ((mapApiResponseToTerraformModel resp prev).checkGroups.getD j
            checkGroupModelZero).key = TFVal.null)) := by
  constructor
  · intro hne hi
    have hlv := reconcile_levels_eq resp prev hne
    have h := mergeIdx_getD prev.levels levelModelZero mergeLevel
      levelModelZero apiLevelZero resp.scorecard.levels 0 i hi
    simp only [Nat.zero_add] at h
    constructor
    · rw [hlv, h]; rfl
    · intro hle
      rw [hlv, h, List.getD_eq_default _ _ hle]; rfl
  · intro hne hj
    have hcg := reconcile_checkGroups_eq resp prev hne
    have h := mergeIdx_getD prev.checkGroups checkGroupModelZero
      mergeCheckGroup checkGroupModelZero apiCheckGroupZero
      resp.scorecard.checkGroups 0 j hj
    simp only [Nat.zero_add] at h
    constructor
    · rw [hcg, h]; rfl
    · intro hle
      rw [hcg, h, List.getD_eq_default _ _ hle]; rfl

/-- C3 witness: the per-item merge instantiated on the non-empty response
fixture at position 0, and the unset key at position 2 where the previous
state has no level. -/
theorem C3_witness :
    (mapApiResponseToTerraformModel respFull prevTwoLevels).levels.getD 0
        levelModelZero
      = { key := (prevTwoLevels.levels.getD 0 levelModelZero).key,
          id := stringOrNull
            ((respFull.scorecard.levels.getD 0 apiLevelZero).id),
          name := stringOrNull
            ((respFull.scorecard.levels.getD 0 apiLevelZero).name),
          color := stringOrNull
            ((respFull.scorecard.levels.getD 0 apiLevelZero).color),
          rank := numberOrNull
            ((respFull.scorecard.levels.getD 0 apiLevelZero).rank) }
  ∧ (mapApiResponseToTerraformModel respFull prevTwoLevels).checkGroups.getD 0
        checkGroupModelZero
      = { key := (prevTwoLevels.checkGroups.getD 0 checkGroupModelZero).key,
          id := stringOrNull
            ((respFull.scorecard.checkGroups.getD 0 apiCheckGroupZero).id),
          name := stringOrNull
            ((respFull.scorecard.checkGroups.getD 0 apiCheckGroupZero).name),
          ordering := numberOrNull
            ((respFull.scorecard.checkGroups.getD 0 apiCheckGroupZero).ordering) }
  ∧ ((mapApiResponseToTerraformModel respFull prevTwoLevels).levels.getD 2
        levelModelZero).key = TFVal.null := by
  have h0 := C3_positional_item_merge respFull prevTwoLevels 0 0
  have h2 := C3_positional_item_merge respFull prevTwoLevels 2 0
  exact ⟨(h0.1 (by decide) (by decide)).1, (h0.2 (by decide) (by decide)).1,
    (h2.1 (by decide) (by decide)).2 (by decide)⟩

/-- C10: the empty-list fallback also governs
`entity_filter_type_identifiers`: a non-empty response list replaces the
local list entirely (element-wise through `stringOrNull`), an empty
response list keeps the previous local list verbatim. -/
theorem C10_identifier_fallback (resp : APIResponse) (prev : scorecardModel) :
    (resp.scorecard.entityFilterTypeIdentifiers.isEmpty = true →
      (mapApiResponseToTerraformModel resp prev).entityFilterTypeIdentifiers
        = prev.entityFilterTypeIdentifiers)
  ∧ (resp.scorecard.entityFilterTypeIdentifiers.isEmpty = false →
      (mapApiResponseToTerraformModel resp prev).entityFilterTypeIdentifiers
        = resp.scorecard.entityFilterTypeIdentifiers.map stringOrNull) := by
  constructor <;> intro h <;> simp [mapApiResponseToTerraformModel, h]

/-- C10 witness: the identifier fallback instantiated on the empty and
non-empty response fixtures. -/
theorem C10_identifier_fallback_witness :
    (mapApiResponseToTerraformModel respEmpty
        prevTwoLevels).entityFilterTypeIdentifiers
      = prevTwoLevels.entityFilterTypeIdentifiers
  ∧ (mapApiResponseToTerraformModel respFull
        prevTwoLevels).entityFilterTypeIdentifiers
      = [TFVal.value "service", TFVal.null] := by
  have h1 := (C10_identifier_fallback respEmpty prevTwoLevels).1 (by decide)
  have h2 := (C10_identifier_fallback respFull prevTwoLevels).2 (by decide)
  refine ⟨h1, ?_⟩
  rw [h2]
  decide

/-! ### Validation claims -/

/-- Desired state missing both `name` and `type`. -/
def planMissingNameType : scorecardModel :=
  { id := TFVal.null, name := TFVal.null, typ := TFVal.null,
    entityFilterType := TFVal.value "entity_types",
    evaluationFrequency := TFVal.value 2,
    emptyLevelLabel := TFVal.null, emptyLevelColor := TFVal.null,
    levels := [], checkGroups := [], description := TFVal.null,
    published := TFVal.null, entityFilterTypeIdentifiers := [],
    entityFilterSql := TFVal.null, checks := [] }

/-- LEVEL-typed desired state with all required scalars present but all
three LEVEL-conditional requirements violated. -/
def planLevelMissingAll : scorecardModel :=
  { id := TFVal.null, name := TFVal.value "SC", typ := TFVal.value "LEVEL",
    entityFilterType := TFVal.value "entity_types",
    evaluationFrequency := TFVal.value 2,
    emptyLevelLabel := TFVal.null, emptyLevelColor := TFVal.null,
    levels := [], checkGroups := [], description := TFVal.null,
    published := TFVal.null, entityFilterTypeIdentifiers := [],
    entityFilterSql := TFVal.null, checks := [] }

/-- Desired state whose `type` is outside LEVEL and POINTS. -/
def planBogusType : scorecardModel :=
  { id := TFVal.null, name := TFVal.value "SC", typ := TFVal.value "BOGUS",
    entityFilterType := TFVal.value "entity_types",
    evaluationFrequency := TFVal.value 2,
    emptyLevelLabel := TFVal.null, emptyLevelColor := TFVal.null,
    levels := [], checkGroups := [], description := TFVal.null,
    published := TFVal.null, entityFilterTypeIdentifiers := [],
    entityFilterSql := TFVal.null, checks := [] }

/-- C4 counterexample.  The claim says validation never stops at the
first violated rule, reporting one error per missing field.  On the code,
a plan missing both `name` and `type` is reported with the name error
alone: each required-scalar check returns immediately. -/
theorem C4_counterexample :
    tfAbsent planMissingNameType.name = true
  ∧ tfAbsent planMissingNameType.typ = true
  ∧ validateCreate planMissingNameType
      = ["The \x27name\x27 field must be specified."] := by
  decide

/-- C4 (amended): validation stops at the first missing required scalar
among `name`, `type`, `entity_filter_type` and
`evaluation_frequency_hours`, reporting only that field's error; only
once all four are present are the type-conditional rules checked, and
those are accumulated so that every applicable type-conditional error is
reported in one pass. -/
theorem C4_first_scalar_then_accumulate (plan : scorecardModel) :
    (tfAbsent plan.name = true →
      validateCreate plan = ["The \x27name\x27 field must be specified."])
  ∧ (tfAbsent plan.name = false → tfAbsent plan.typ = true →
      validateCreate plan = ["The \x27type\x27 field must be specified."])
  ∧ (tfAbsent plan.name = false → tfAbsent plan.typ = false →
      tfAbsent plan.entityFilterType = true →
      validateCreate plan
        = ["The \x27entity_filter_type\x27 field must be specified."])
  ∧ (tfAbsent plan.name = false → tfAbsent plan.typ = false →
      tfAbsent plan.entityFilterType = false →
      tfAbsent plan.evaluationFrequency = true →
      validateCreate plan
        = ["The \x27evaluation_frequency_hours\x27 field must be specified."])
  ∧ (tfAbsent plan.name = false → tfAbsent plan.typ = false →
      tfAbsent plan.entityFilterType = false →
      tfAbsent plan.evaluationFrequency = false →
      tfValueString plan.typ = "LEVEL" →
      validateCreate plan =
        (if tfAbsent plan.emptyLevelLabel = true then
          ["The \x27empty_level_label\x27 field must be specified for LEVEL scorecards."]
        else []) ++
        (if tfAbsent plan.emptyLevelColor = true then
          ["The \x27empty_level_color\x27 field must be specified for LEVEL scorecards."]
        else []) ++
        (if plan.levels.length = 0 then
          ["At least one \x27level\x27 must be specified for LEVEL scorecards."]
        else []))
  ∧ (tfAbsent plan.name = false → tfAbsent plan.typ = false →
      tfAbsent plan.entityFilterType = false →
      tfAbsent plan.evaluationFrequency = false →
      tfValueString plan.typ = "POINTS" →
      validateCreate plan =
        (if plan.checkGroups.length = 0 then
          ["At least one \x27check_group\x27 must be specified for POINTS scorecards."]
        else []))
  ∧ (tfAbsent plan.name = false → tfAbsent plan.typ = false →
      tfAbsent plan.entityFilterType = false →
      tfAbsent plan.evaluationFrequency = false →
      tfValueString plan.typ ≠ "LEVEL" → tfValueString plan.typ ≠ "POINTS" →
      validateCreate plan
        = ["Unsupported scorecard type: " ++ tfValueString plan.typ]) := by
  refine ⟨?_, ?_, ?_, ?_, ?_, ?_, ?_⟩
  · intro h1
    simp [validateCreate, h1]
  · intro h1 h2
    simp [validateCreate, h1, h2]
  · intro h1 h2 h3
    simp [validateCreate, h1, h2, h3]
  · intro h1 h2 h3 h4
    simp [validateCreate, h1, h2, h3, h4]
  · intro h1 h2 h3 h4 h5
    simp [validateCreate, h1, h2, h3, h4, h5]
  · intro h1 h2 h3 h4 h5
    simp [validateCreate, h1, h2, h3, h4, h5]
  · intro h1 h2 h3 h4 h5 h6
    simp [validateCreate, h1, h2, h3, h4, h5, h6]

/-- C4 witness: the first-scalar stop on the plan missing name and type,
and the three accumulated LEVEL errors on the plan violating all three
LEVEL rules. -/
theorem C4_first_scalar_then_accumulate_witness :
    validateCreate planMissingNameType
      = ["The \x27name\x27 field must be specified."]
  ∧ validateCreate planLevelMissingAll
      = ["The \x27empty_level_label\x27 field must be specified for LEVEL scorecards.",
         "The \x27empty_level_color\x27 field must be specified for LEVEL scorecards.",
         "At least one \x27level\x27 must be specified for LEVEL scorecards."] := by
  have h1 := (C4_first_scalar_then_accumulate planMissingNameType).1 (by decide)
  have h2 := (C4_first_scalar_then_accumulate planLevelMissingAll).2.2.2.2.1
    (by decide) (by decide) (by decide) (by decide) (by decide)
  refine ⟨h1, ?_⟩
  rw [h2]
  decide

/-- C5 counterexample.  The claim says Update validates the desired state
first and that an invalid desired state (here `type = "BOGUS"`) produces
validation errors and no remote update call.  On the code, the update
flow calls the remote with no validation at all: the call occurs, no
validation error is reported, and the state is written. -/
theorem C5_counterexample :
    validateCreate planBogusType = ["Unsupported scorecard type: BOGUS"]
  ∧ (updateFlow planBogusType (Except.ok respEmpty)).remoteCalled = true
  ∧ (updateFlow planBogusType (Except.ok respEmpty)).errors = []
  ∧ (updateFlow planBogusType (Except.ok respEmpty)).stateWritten
      = some (mapApiResponseToTerraformModel respEmpty planBogusType) := by
  decide

/-- C5 (amended): Update performs no validation: for every desired state
(valid or not) the remote update call occurs, and the only errors ever
reported come from the remote call itself. -/
theorem C5_no_update_validation (plan : scorecardModel)
    (outcome : Except String APIResponse) :
    (updateFlow plan outcome).remoteCalled = true
  ∧ (updateFlow plan outcome).errors =
      (match outcome with
       | Except.ok _ => []
       | Except.error e => ["Error updating scorecard: " ++ e]) := by
  cases outcome <;> simp [updateFlow]

/-! ### Payload id claims -/

/-- Check declared under the LEVEL scorecard fixture, with an embedded
level snapshot. -/
def cC6 : checkModel :=
  { checkModelZero with
    name := TFVal.value "Check",
    scorecardLevelKey := TFVal.value "b",
    level := { key := TFVal.value "b", id := TFVal.value "L1",
               name := TFVal.value "Bronze", color := TFVal.value "#cd7f32",
               rank := TFVal.value 1 } }

/-- LEVEL scorecard declaring one check with an embedded level. -/
def pC6 : scorecardModel := { prevC1 with checks := [cC6] }

/-- True when some check entry of the payload carries a `level`
sub-object with an `id` entry. -/
def payloadCheckLevelHasId (payload : List (String × PVal)) : Bool :=
  match lookupP payload "checks" with
  | some (PVal.list vs) =>
    vs.any (fun v =>
      match v with
      | PVal.obj c =>
        (match lookupP c "level" with
         | some (PVal.obj l) => objHasKey l "id"
         | _ => false)
      | _ => false)
  | _ => false

/-- C6 counterexample.  The claim says the create payload contains no id
entry for any entity, including the checks' embedded level sub-objects.
On the code, the create payload of a LEVEL scorecard with one check does
carry an `id` entry inside the check's embedded `level` sub-object (the
payload root itself has none). -/
theorem C6_counterexample :
    payloadCheckLevelHasId (buildCreatePayload pC6) = true
  ∧ objHasKey (buildCreatePayload pC6) "id" = false := by
  decide

/-- C6 (amended): the create payload carries no `id` entry at the root,
in level items, in check-group items, in check items or in the checks'
embedded check-group sub-objects, but each check's embedded level
sub-object does carry an `id` entry; the update payload carries an `id`
entry at the root, in every level and check-group item, in every check
item and in both embedded sub-objects. -/
theorem C6_id_on_wire :
    (∀ plan : scorecardModel, objHasKey (buildCreatePayload plan) "id" = false)
  ∧ (∀ l : levelModel, objHasKey (createLevelObj l) "id" = false)
  ∧ (∀ g : checkGroupModel, objHasKey (createCheckGroupObj g) "id" = false)
  ∧ (∀ (t : String) (c : checkModel),
      objHasKey (createCheckObj t c) "id" = false)
  ∧ (∀ c : checkModel, objHasKey (createCheckCheckGroupSub c) "id" = false)
  ∧ (∀ c : checkModel, objHasKey (createCheckLevelSub c) "id" = true)
  ∧ (∀ plan : scorecardModel, objHasKey (buildUpdatePayload plan) "id" = true)
  ∧ (∀ l : levelModel, objHasKey (updateLevelObj l) "id" = true)
  ∧ (∀ g : checkGroupModel, objHasKey (updateCheckGroupObj g) "id" = true)
  ∧ (∀ (t : String) (c : checkModel),
      objHasKey (updateCheckObj t c) "id" = true)
  ∧ (∀ c : checkModel, objHasKey (updateCheckLevelSub c) "id" = true)
  ∧ (∀ c : checkModel, objHasKey (updateCheckCheckGroupSub c) "id" = true) := by
  refine ⟨?_, ?_, ?_, ?_, ?_, ?_, ?_, ?_, ?_, ?_, ?_, ?_⟩
  · intro plan
    simp only [buildCreatePayload, objHasKey]
    split_ifs <;> rfl
  · intro l
    rfl
  · intro g
    rfl
  · intro t c
    simp only [createCheckObj, objHasKey]
    split_ifs <;> rfl
  · intro c
    rfl
  · intro c
    rfl
  · intro plan
    rfl
  · intro l
    rfl
  · intro g
    rfl
  · intro t c
    rfl
  · intro c
    rfl
  · intro c
    rfl

/-! ### Optional boolean claims -/

/-- Previous check carrying explicit-false optional booleans. -/
def checkC7 : checkModel :=
  { checkModelZero with
    name := TFVal.value "Check",
    outputEnabled := TFVal.value false,
    published := TFVal.value false }

/-- Previous state with an explicit-false scorecard `published` and the
explicit-false check. -/
def prevC7 : scorecardModel :=
  { prevTwoLevels with published := TFVal.value false, checks := [checkC7] }

/-- Response check echoing `false` for both optional booleans. -/
def apiCheckC7 : APICheck :=
  { id := some "c1", name := some "Check", description := none,
    ordering := none, sql := none, filterSql := none, filterMessage := none,
    outputEnabled := false, outputType := none, outputAggregation := none,
    outputCustomOptions := none, estimatedDevDays := none,
    externalUrl := none, published := false, scorecardLevelKey := none,
    level := apiLevelZero, scorecardCheckGroupKey := none,
    checkGroup := apiCheckGroupZero, points := none }

/-- Response echoing `false` for the scorecard `published` and for the
check booleans. -/
def respC7 : APIResponse :=
  { ok := true,
    scorecard :=
    { id := "sc_1", name := "SC", typ := "LEVEL",
      entityFilterType := "entity_types", evaluationFrequency := 2,
      emptyLevelLabel := some "None", emptyLevelColor := some "#cccccc",
      levels := [], checkGroups := [], description := none,
      published := false, entityFilterTypeIdentifiers := [],
      entityFilterSql := none, checks := [apiCheckC7] } }

/-- C7 evaluation at the failing input.  A check whose previous
`output_enabled` and `published` are explicit false, reconciled against a
response sending `false`, comes back unset instead of explicit false: the
source passes the freshly zeroed `plan.Checks[i]` value to `boolApiToTF`
instead of the previous check's value, while the scorecard-level
`published` (which does receive the previous value) keeps its explicit
false. -/
theorem C7_check_bool_dropped :
    (prevC7.checks.getD 0 checkModelZero).outputEnabled = TFVal.value false
  ∧ (prevC7.checks.getD 0 checkModelZero).published = TFVal.value false
  ∧ ((mapApiResponseToTerraformModel respC7 prevC7).checks.getD 0
      checkModelZero).outputEnabled = TFVal.null
  ∧ ((mapApiResponseToTerraformModel respC7 prevC7).checks.getD 0
      checkModelZero).published = TFVal.null
  ∧ (mapApiResponseToTerraformModel respC7 prevC7).published
      = TFVal.value false := by
  decide

/-! ### Echo idempotence claim -/

/-- Known string value as an optional wire value (unset becomes absent). -/
def tfStringToOption : TFVal String → Option String
  | TFVal.value s => some s
  | _ => none

/-- Known integer value as an optional wire value. -/
def tfIntToOption : TFVal Int → Option Int
  | TFVal.value n => some n
  | _ => none

/-- Known integer value, defaulting to zero. -/
def tfIntValue : TFVal Int → Int
  | TFVal.value n => n
  | _ => 0

/-- Echo of a level's server-owned fields, following the spec's
idempotence property: `id`, `name`, `color` and `rank` are sent back,
the client `key` never is. -/
def echoLevel (l : levelModel) : APILevel :=
  { key := none, id := tfStringToOption l.id, name := tfStringToOption l.name,
    color := tfStringToOption l.color, rank := tfIntToOption l.rank }

/-- Echo of a check group's server-owned fields. -/
def echoCheckGroup (g : checkGroupModel) : APICheckGroup :=
  { key := none, id := tfStringToOption g.id, name := tfStringToOption g.name,
    ordering := tfIntToOption g.ordering }

/-- Echo of a check's server-owned fields. -/
def echoCheck (c : checkModel) : APICheck :=
  { id := tfStringToOption c.id, name := tfStringToOption c.name,
    description := tfStringToOption c.description,
    ordering := tfIntToOption c.ordering, sql := tfStringToOption c.sql,
    filterSql := tfStringToOption c.filterSql,
    filterMessage := tfStringToOption c.filterMessage,
    outputEnabled := tfValueBool c.outputEnabled,
    outputType := tfStringToOption c.outputType,
    outputAggregation := tfStringToOption c.outputAggregation,
    outputCustomOptions := tfStringToOption c.outputCustomOptions,
    estimatedDevDays := tfIntToOption c.estimatedDevDays,
    externalUrl := tfStringToOption c.externalUrl,
    published := tfValueBool c.published,
    scorecardLevelKey := tfStringToOption c.scorecardLevelKey,
    level := echoLevel c.level,
    scorecardCheckGroupKey := tfStringToOption c.scorecardCheckGroupKey,
    checkGroup := echoCheckGroup c.checkGroup,
    points := tfIntToOption c.points }

/-- Response that exactly echoes a model's server-owned fields, following
the spec's idempotence property: required scalars and booleans echo
their effective values, optional fields echo present or absent, list
items echo element-wise, client keys are never echoed. -/
def echoResponse (s : scorecardModel) : APIResponse :=
  { ok := true,
    scorecard :=
    { id := tfValueString s.id, name := tfValueString s.name,
      typ := tfValueString s.typ,
      entityFilterType := tfValueString s.entityFilterType,
      evaluationFrequency := tfIntValue s.evaluationFrequency,
      emptyLevelLabel := tfStringToOption s.emptyLevelLabel,
      emptyLevelColor := tfStringToOption s.emptyLevelColor,
      levels := s.levels.map echoLevel,
      checkGroups := s.checkGroups.map echoCheckGroup,
      description := tfStringToOption s.description,
      published := tfValueBool s.published,
      entityFilterTypeIdentifiers :=
        s.entityFilterTypeIdentifiers.map tfStringToOption,
      entityFilterSql := tfStringToOption s.entityFilterSql,
      checks := s.checks.map echoCheck } }

/-- Well-formed persisted state with one check whose `output_enabled` is
explicit false; every other field echoes exactly. -/
def checkC8 : checkModel :=
  { id := TFVal.value "c1", name := TFVal.value "Check",
    description := TFVal.value "d", ordering := TFVal.value 1,
    sql := TFVal.value "q", filterSql := TFVal.value "f",
    filterMessage := TFVal.value "m", outputEnabled := TFVal.value false,
    outputType := TFVal.value "t", outputAggregation := TFVal.value "a",
    outputCustomOptions := TFVal.value "o", estimatedDevDays := TFVal.value 1,
    externalUrl := TFVal.value "u", published := TFVal.value true,
    scorecardLevelKey := TFVal.value "b",
    level := { key := TFVal.value "b", id := TFVal.value "L1",
               name := TFVal.value "Bronze", color := TFVal.value "#cd7f32",
               rank := TFVal.value 1 },
    scorecardCheckGroupKey := TFVal.null, checkGroup := checkGroupModelZero,
    points := TFVal.null }

/-- Well-formed persisted LEVEL state used for the echo test. -/
def prevC8 : scorecardModel :=
  { id := TFVal.value "sc_1", name := TFVal.value "SC",
    typ := TFVal.value "LEVEL",
    entityFilterType := TFVal.value "entity_types",
    evaluationFrequency := TFVal.value 2,
    emptyLevelLabel := TFVal.value "None",
    emptyLevelColor := TFVal.value "#cccccc",
    levels := [{ key := TFVal.value "b", id := TFVal.value "L1",
                 name := TFVal.value "Bronze", color := TFVal.value "#cd7f32",
                 rank := TFVal.value 1 }],
    checkGroups := [], description := TFVal.null,
    published := TFVal.value true, entityFilterTypeIdentifiers := [],
    entityFilterSql := TFVal.null, checks := [checkC8] }

/-- C8 evaluation at the failing input.  Reconciling a response that
exactly echoes the previous state's server-owned fields does not return
the previous state: the check whose `output_enabled` was explicit false
comes back unset (the same slice-zeroing slip as in the per-check boolean
merge), so `reconcile(echo(previous), previous) = previous` fails. -/
theorem C8_echo_not_idempotent :
    mapApiResponseToTerraformModel (echoResponse prevC8) prevC8 ≠ prevC8
  ∧ ((mapApiResponseToTerraformModel (echoResponse prevC8) prevC8).checks.getD
      0 checkModelZero).outputEnabled = TFVal.null
  ∧ (prevC8.checks.getD 0 checkModelZero).outputEnabled
      = TFVal.value false := by
  decide

/-! ### Failure-path claim -/

/-- C9: on every lifecycle event, every failure outcome reports an error
and writes no state: a validation failure in Create reports exactly the
validation errors, performs no remote call and writes nothing; a remote
error in Create, Read, Update or Delete reports an error and writes
nothing; an unconfirmed delete reports an error and writes nothing; and
Delete never writes state at all. -/
theorem C9_failure_leaves_state (plan state : scorecardModel) (e : String)
    (rc : Except String APIResponse) (rd : Except String Bool) :
    (validateCreate plan ≠ [] →
      (createFlow plan rc).remoteCalled = false
      ∧ (createFlow plan rc).errors = validateCreate plan
      ∧ (createFlow plan rc).stateWritten = none)
  ∧ ((createFlow plan (Except.error e)).stateWritten = none
      ∧ (createFlow plan (Except.error e)).errors ≠ [])
  ∧ ((readFlow state (Except.error e)).stateWritten = none
      ∧ (readFlow state (Except.error e)).errors ≠ [])
  ∧ ((updateFlow plan (Except.error e)).stateWritten = none
      ∧ (updateFlow plan (Except.error e)).errors ≠ [])
  ∧ ((deleteFlow state (Except.error e)).stateWritten = none
      ∧ (deleteFlow state (Except.error e)).errors ≠ [])
  ∧ ((deleteFlow state (Except.ok false)).stateWritten = none
      ∧ (deleteFlow state (Except.ok false)).errors ≠ [])
  ∧ (deleteFlow state rd).stateWritten = none := by
  refine ⟨?_, ?_, ?_, ?_, ?_, ?_, ?_⟩
  · intro h
    cases hv : validateCreate plan with
    | nil => exact absurd hv h
    | cons a l => simp [createFlow, hv]
  · cases hv : validateCreate plan with
    | nil => simp [createFlow, hv]
    | cons a l => simp [createFlow, hv]
  · by_cases hid : tfValueString state.id = "" <;> simp [readFlow, hid]
  · simp [updateFlow]
  · by_cases hid : tfValueString state.id = "" <;> simp [deleteFlow, hid]
  · by_cases hid : tfValueString state.id = "" <;> simp [deleteFlow, hid]
  · by_cases hid : tfValueString state.id = "" <;>
      cases rd <;> simp [deleteFlow, hid]
    case neg.ok b => cases b <;> simp

/-- C9 witness: the validation-failure conjunct instantiated on the
invalid-type plan. -/
theorem C9_failure_leaves_state_witness :
    (createFlow planBogusType (Except.ok respEmpty)).stateWritten = none
  ∧ (createFlow planBogusType (Except.ok respEmpty)).remoteCalled = false
  ∧ (createFlow planBogusType (Except.ok respEmpty)).errors
      = ["Unsupported scorecard type: BOGUS"] := by
  have h := (C9_failure_leaves_state planBogusType planBogusType "boom"
    (Except.ok respEmpty) (Except.ok true)).1 (by decide)
  refine ⟨h.2.2, h.1, ?_⟩
  rw [h.2.1]
  decide

end ScorecardProvider
